import Mathlib

/-!
Verification of the Audixa TTS client library.

A shallow embedding, in Lean 4, of the core logic of the Audixa
Node.js/TypeScript SDK: the error taxonomy (`errors.ts`), the request
dispatcher (`client.ts`) and the job orchestrator (`index.ts`), together
with theorems about their behaviour.

JavaScript-specific semantics that the source relies on are modelled
explicitly:
* the `||` operator treats the empty string, `0`, `null` and `undefined`
  as falsy (`jsOrStr`, `jsOrNat`, `jsTruthy`);
* the `"abort"` event of an `AbortSignal` fires only when the abort
  transition happens, so a listener registered after the signal is already
  aborted is never invoked (`abortEventTime`);
* `Response.ok` means the HTTP status lies in 200..299.
-/

namespace Audixa

/-- The closed set of error codes of `errors.ts` (`AudixaErrorCode`). -/
inductive AudixaErrorCode where
  | INVALID_PARAMS
  | INVALID_API_KEY
  | INSUFFICIENT_CREDITS
  | FORBIDDEN
  | NOT_FOUND
  | UNAUTHORIZED
  | NETWORK_ERROR
  | TIMEOUT
  | UNKNOWN
  deriving DecidableEq, Repr

/-- The parsed error body (`APIErrorResponse` in `types/common.ts`):
`message`, `error` and `details` are all optional fields. -/
structure APIErrorResponse where
  message : Option String
  error : Option String
  details : Option String
  deriving DecidableEq, Repr

/-- The `AudixaError` class of `errors.ts`: a message, a taxonomy code, an
optional HTTP status and the optional raw parsed body. -/
structure AudixaError where
  message : String
  code : AudixaErrorCode
  status : Option Nat
  response : Option APIErrorResponse
  deriving DecidableEq, Repr

/-- JavaScript `a || b` on an optional string `a`: `undefined` and the
empty string are falsy, so both fall through to `b`. -/
def jsOrStr (a : Option String) (b : String) : String :=
  match a with
  | some s => if s = "" then b else s
  | none => b

/-- JavaScript `a || b` on an optional number `a`: `undefined` and `0` are
falsy, so both fall through to `b`. -/
def jsOrNat (a : Option Nat) (b : Nat) : Nat :=
  match a with
  | some n => if n = 0 then b else n
  | none => b

/-- Function `getErrorCodeFromStatus` of `errors.ts`: the switch mapping HTTP
status codes to taxonomy codes. -/
def getErrorCodeFromStatus (status : Nat) : AudixaErrorCode :=
  if status = 400 then .INVALID_PARAMS
  else if status = 401 then .INVALID_API_KEY
  else if status = 402 then .INSUFFICIENT_CREDITS
  else if status = 403 then .FORBIDDEN
  else if status = 404 then .NOT_FOUND
  else .UNKNOWN

/-- Factory `AudixaError.fromResponse` of `errors.ts`:
`response?.message || response?.error || "Request failed with status S"`,
with `getErrorCodeFromStatus` supplying the code. -/
def AudixaError.fromResponse (status : Nat) (response : Option APIErrorResponse) :
    AudixaError :=
  ⟨jsOrStr (response.bind APIErrorResponse.message)
     (jsOrStr (response.bind APIErrorResponse.error)
       ("Request failed with status " ++ toString status)),
   getErrorCodeFromStatus status, some status, response⟩

/-- Factory `AudixaError.networkError` of `errors.ts`. -/
def AudixaError.networkError (originalMessage : String) : AudixaError :=
  ⟨"Network error: " ++ originalMessage, .NETWORK_ERROR, none, none⟩

/-- Constant `AudixaError.timeoutError` models the static factory that builds the
timed-out error in `errors.ts`. -/
def AudixaError.timeoutError : AudixaError :=
  ⟨"Request timed out", .TIMEOUT, none, none⟩

/-! ## URL composition (`client.ts`, `request`) -/

/-- Compute `path.replace(/^\/+/, "")`: drop every leading `/`. -/
def dropLeadingSlashes (s : String) : String :=
  String.mk (s.data.dropWhile (fun c => c == '/'))

/-- Compute `baseUrl.replace(/\/+$/, "")`: drop every trailing `/`. -/
def dropTrailingSlashes (s : String) : String :=
  String.mk ((s.data.reverse.dropWhile (fun c => c == '/')).reverse)

/-- The URL composed by `request` in `client.ts`: base with trailing
slashes stripped, one `/`, path with leading slashes stripped. -/
def joinUrl (baseUrl path : String) : String :=
  dropTrailingSlashes baseUrl ++ "/" ++ dropLeadingSlashes path

/-! ## The request dispatcher (`client.ts`, `HttpClient.request`) -/

/-- Result of one dispatch: either the parsed body or a raised
`AudixaError` (the only type `request` ever throws). -/
inductive RequestResult (T : Type) where
  | ok (v : T)
  | err (e : AudixaError)
  deriving DecidableEq, Repr

/-- What the underlying `fetch` call produced, as seen by the
`try`/`catch` of `request`: a completed HTTP exchange with a status and a parsed body
(`none` models a non-JSON body, on which field access yields `undefined`),
a rejection named `AbortError`, a rejection with some other `Error`, or a
thrown non-`Error` value. -/
inductive FetchOutcome where
  | completed (status : Nat) (body : Option APIErrorResponse)
  | abortRaised
  | errorRaised (message : String)
  | nonErrorRaised
  deriving DecidableEq, Repr

/-- The error-classification core of `HttpClient.request` in `client.ts`.
`sigAborted` models `signal?.aborted` at `catch` time: `none` when no
caller signal was supplied, otherwise the aborted flag of the signal.
* a completed exchange with `response.ok` (status 200..299) returns the body;
* a completed non-2xx exchange throws `AudixaError.fromResponse`;
* an `AbortError` throws the cancellation error when the signal of the caller
  is aborted, else the timeout error;
* any other `Error` throws `networkError`; a non-`Error` throw is wrapped
  as `UNKNOWN`. -/
def requestOutcome (sigAborted : Option Bool) (o : FetchOutcome) :
    RequestResult (Nat × Option APIErrorResponse) :=
  match o with
  | .completed status body =>
      if 200 ≤ status ∧ status ≤ 299 then .ok (status, body)
      else .err (AudixaError.fromResponse status body)
  | .abortRaised =>
      if sigAborted = some true then
        .err ⟨"Request was cancelled", .UNKNOWN, none, none⟩
      else .err AudixaError.timeoutError
  | .errorRaised m => .err (AudixaError.networkError m)
  | .nonErrorRaised => .err ⟨"An unknown error occurred", .UNKNOWN, none, none⟩

/-! ## Abort signals (`client.ts`, `HttpClient.combineSignals`)

An `AbortSignal` is modelled by the instant its controller calls
`abort()`, if ever.  The DOM `"abort"` event fires exactly once, at the
abort transition; a listener registered at time `r` on a signal whose
transition happened strictly before `r` is never invoked. -/

/-- An abort signal: `abortAt = some t` means its controller aborts it at
instant `t`; `none` means it is never aborted. -/
structure AbortSignalModel where
  abortAt : Option Nat
  deriving DecidableEq, Repr

/-- Read `signal.aborted` at time `t`. -/
def AbortSignalModel.isAborted (s : AbortSignalModel) (t : Nat) : Bool :=
  match s.abortAt with
  | some ta => decide (ta ≤ t)
  | none => false

/-- The instant at which an `"abort"` listener registered at time `r`
fires: only an abort transition at or after registration is observed. -/
def abortEventTime (s : AbortSignalModel) (r : Nat) : Option Nat :=
  match s.abortAt with
  | some ta => if r ≤ ta then some ta else none
  | none => none

/-- Earliest of two optional instants (`none` = never). -/
def minEventTime : Option Nat → Option Nat → Option Nat
  | some a, some b => some (min a b)
  | some a, none => some a
  | none, b => b

/-- Method `HttpClient.combineSignals` of `client.ts`, constructed at time `c`:
a fresh controller whose `abort()` is called by the `"abort"` listener it
registers (at time `c`) on each of the two parent signals.  The combined
signal therefore aborts at the earliest parent abort *event* observed from
time `c` on. -/
def combineSignals (userSignal timeoutSignal : AbortSignalModel) (c : Nat) :
    AbortSignalModel :=
  ⟨minEventTime (abortEventTime userSignal c) (abortEventTime timeoutSignal c)⟩

/-! ## Construction-time validation (`client.ts`, `HttpClient` constructor) -/

/-- A JavaScript runtime value, as far as the constructor check
`!apiKey || typeof apiKey !== "string"` can distinguish. -/
inductive JSValue where
  | str (s : String)
  | num (n : Int)
  | boolV (b : Bool)
  | nullV
  | undefinedV
  | objV
  deriving DecidableEq, Repr

/-- JavaScript truthiness of a value. -/
def jsTruthy : JSValue → Bool
  | .str s => !(s == "")
  | .num n => !(n == 0)
  | .boolV b => b
  | .nullV => false
  | .undefinedV => false
  | .objV => true

/-- Test `typeof v === "string"`. -/
def isStringTy : JSValue → Bool
  | .str _ => true
  | _ => false

/-- The string content of a `JSValue` known to be a string. -/
def jsStringVal : JSValue → String
  | .str s => s
  | _ => ""

/-- Structure `AudixaOptions` of `types/common.ts`: optional base URL and timeout. -/
structure AudixaOptions where
  baseUrl : Option String
  timeout : Option Nat
  deriving DecidableEq, Repr

/-- Default API base URL (`client.ts`). -/
def DEFAULT_BASE_URL : String := "https://api.audixa.ai/v2"

/-- Default request timeout in milliseconds (`client.ts`). -/
def DEFAULT_TIMEOUT : Nat := 30000

/-- The immutable state of a constructed `HttpClient`. -/
structure HttpClient where
  baseUrl : String
  timeout : Nat
  apiKey : String
  deriving DecidableEq, Repr

/-- The `HttpClient` constructor in `client.ts`: throws `INVALID_PARAMS`
when `!apiKey || typeof apiKey !== "string"`, else stores the key and the
defaulted options (`options?.baseUrl || DEFAULT_BASE_URL`,
`options?.timeout || DEFAULT_TIMEOUT`, both via JavaScript `||`). -/
def HttpClient.create (apiKey : JSValue) (options : Option AudixaOptions) :
    Except AudixaError HttpClient :=
  if !(jsTruthy apiKey) || !(isStringTy apiKey) then
    .error ⟨"API key is required and must be a string", .INVALID_PARAMS, none, none⟩
  else
    .ok ⟨jsOrStr (options.bind AudixaOptions.baseUrl) DEFAULT_BASE_URL,
         jsOrNat (options.bind AudixaOptions.timeout) DEFAULT_TIMEOUT,
         jsStringVal apiKey⟩

/-! ## The job orchestrator (`index.ts`, `Audixa.generateTTS`) -/

/-- Enumeration `TTSStatus` of `types/tts.ts`. -/
inductive TTSStatus where
  | Generating
  | Completed
  | Failed
  deriving DecidableEq, Repr

/-- Structure `TTSStatusResponse` of `types/tts.ts`: the status plus
`url : string | null` (`none` models `null`). -/
structure TTSStatusResponse where
  status : TTSStatus
  url : Option String
  deriving DecidableEq, Repr

/-- JavaScript truthiness of `status.url : string | null`:
`null` and the empty string are falsy. -/
def jsTruthyUrl : Option String → Bool
  | some s => !(s == "")
  | none => false

/-- A JavaScript-falsy optional string: absent (`undefined`) or empty. -/
def jsFalsyStr (o : Option String) : Prop := o = none ∨ o = some ("")

/-- A value raised by the orchestrator: either an `AudixaError`
(propagated from the dispatcher) or a plain JavaScript `Error` with the
given message (`throw new Error(...)` in `generateTTS`). -/
inductive RaisedError where
  | audixa (e : AudixaError)
  | plain (message : String)
  deriving DecidableEq, Repr

/-- Outcome of the `generateTTS` polling loop, instrumented with the
number of status fetches issued and the wall-clock instant of the exit.
`outOfPolls` marks exhaustion of the (finite) modelled poll trace with the
loop still running. -/
inductive GenOutcome where
  | done (url : String) (fetches : Nat) (time : Nat)
  | raised (e : RaisedError) (fetches : Nat) (time : Nat)
  | outOfPolls (fetches : Nat) (time : Nat)
  deriving DecidableEq, Repr

/-- The `while (true)` polling loop of `Audixa.generateTTS` in `index.ts`.
`polls` is the trace of successive `getStatus` results, each paired with
the duration of that fetch; `signalAborted t` is the aborted flag of the
caller signal read at instant `t`; `now` is the current instant and
`fetches` the number of status fetches issued so far.  Each iteration:
1. `Date.now() - startTime > maxWaitTime` → throw the plain timeout `Error`;
2. `signal?.aborted` → throw the plain cancellation `Error`;
3. await `getStatus` (a dispatch failure propagates its `AudixaError`);
4. status `Completed` with truthy `url` → return the url;
5. status `Failed` → throw the plain failure `Error`;
6. otherwise sleep `pollInterval` and loop. -/
def generateTTSLoop (pollInterval maxWaitTime startTime : Nat)
    (signalAborted : Nat → Bool)
    (polls : List (Nat × RequestResult TTSStatusResponse))
    (now fetches : Nat) : GenOutcome :=
  if maxWaitTime < now - startTime then
    .raised (.plain ("Generation timed out after " ++ toString maxWaitTime ++ "ms"))
      fetches now
  else if signalAborted now then
    .raised (.plain ("Generation was cancelled")) fetches now
  else
    match polls with
    | [] => .outOfPolls fetches now
    | (d, r) :: rest =>
      match r with
      | .err e => .raised (.audixa e) (fetches + 1) (now + d)
      | .ok st =>
        if st.status = .Completed ∧ jsTruthyUrl st.url then
          .done (st.url.getD ("")) (fetches + 1) (now + d)
        else if st.status = .Failed then
          .raised (.plain ("TTS generation failed")) (fetches + 1) (now + d)
        else
          generateTTSLoop pollInterval maxWaitTime startTime signalAborted rest
            (now + d + pollInterval) (fetches + 1)

/-- Method `Audixa.generateTTS` of `index.ts`: submit the job via `startTTS`
(a dispatch failure propagates its `AudixaError`), record `startTime`,
then run the polling loop.  Defaults in the source: `pollInterval = 1000`,
`maxWaitTime = 120000`. -/
def generateTTS (pollInterval maxWaitTime : Nat) (signalAborted : Nat → Bool)
    (submit : RequestResult String) (startTime : Nat)
    (polls : List (Nat × RequestResult TTSStatusResponse)) : GenOutcome :=
  match submit with
  | .err e => .raised (.audixa e) 0 startTime
  | .ok _ =>
      generateTTSLoop pollInterval maxWaitTime startTime signalAborted polls
        startTime 0

/-- Total modelled duration of a poll trace: the duration of each fetch plus
one inter-poll sleep. -/
def totalTime (pollInterval : Nat)
    (polls : List (Nat × RequestResult TTSStatusResponse)) : Nat :=
  (polls.map (fun p => p.1 + pollInterval)).sum

/-- Truthiness of an optional URL characterised. -/
lemma jsTruthyUrl_iff (u : Option String) :
    jsTruthyUrl u = true ↔ ∃ s, u = some s ∧ s ≠ "" := by
  cases u <;> simp [jsTruthyUrl]

/-- Helper: a successful return of the polling loop comes from a poll in
the trace whose status is Completed with a truthy url. -/
lemma generateTTSLoop_done_src (pI mW start : Nat) (sig : Nat → Bool)
    (polls : List (Nat × RequestResult TTSStatusResponse)) :
    ∀ now f u k t,
      generateTTSLoop pI mW start sig polls now f = .done u k t →
      ∃ d st, (d, RequestResult.ok st) ∈ polls ∧
        st.status = .Completed ∧ st.url = some u ∧ u ≠ "" := by
  induction polls with
  | nil =>
    intro now f u k t h
    unfold generateTTSLoop at h
    split at h
    · simp at h
    · split at h
      · simp at h
      · simp at h
  | cons p rest ih =>
    intro now f u k t h
    obtain ⟨d, r⟩ := p
    unfold generateTTSLoop at h
    split at h
    · simp at h
    · split at h
      · simp at h
      · cases r with
        | err e => simp at h
        | ok st =>
          simp only at h
          split at h
          · rename_i hc
            obtain ⟨hst, hurl⟩ := hc
            obtain ⟨s, hs, hne⟩ := (jsTruthyUrl_iff st.url).mp hurl
            simp only [GenOutcome.done.injEq] at h
            obtain ⟨h1, h2, h3⟩ := h
            refine ⟨d, st, List.mem_cons_self _ _, hst, ?_, ?_⟩
            · rw [hs, ← h1, hs]
              simp
            · rw [← h1, hs]
              simpa using hne
          · split at h
            · simp at h
            · obtain ⟨d2, st2, hmem, hp⟩ := ih _ _ _ _ _ h
              exact ⟨d2, st2, List.mem_cons_of_mem _ hmem, hp⟩

/-- Helper: an AudixaError raised by the polling loop comes from a failed
status fetch in the trace. -/
lemma generateTTSLoop_audixa_src (pI mW start : Nat) (sig : Nat → Bool)
    (polls : List (Nat × RequestResult TTSStatusResponse)) :
    ∀ now f e k t,
      generateTTSLoop pI mW start sig polls now f = .raised (.audixa e) k t →
      ∃ d, (d, RequestResult.err e) ∈ polls := by
  induction polls with
  | nil =>
    intro now f e k t h
    unfold generateTTSLoop at h
    split at h
    · simp at h
    · split at h
      · simp at h
      · simp at h
  | cons p rest ih =>
    intro now f e k t h
    obtain ⟨d, r⟩ := p
    unfold generateTTSLoop at h
    split at h
    · simp at h
    · split at h
      · simp at h
      · cases r with
        | err e2 =>
          simp only [GenOutcome.raised.injEq, RaisedError.audixa.injEq] at h
          obtain ⟨h1, h2, h3⟩ := h
          exact ⟨d, by rw [h1]; exact List.mem_cons_self _ _⟩
        | ok st =>
          simp only at h
          split at h
          · simp at h
          · split at h
            · simp at h
            · obtain ⟨d2, hmem⟩ := ih _ _ _ _ _ h
              exact ⟨d2, List.mem_cons_of_mem _ hmem⟩

/-- Helper: once elapsed wall-clock time exceeds the maximum wait, the
loop immediately raises the plain timeout error, whatever the trace. -/
lemma generateTTSLoop_timeout_fire (pI mW start : Nat) (sig : Nat → Bool)
    (polls : List (Nat × RequestResult TTSStatusResponse)) (now f : Nat)
    (h : mW < now - start) :
    generateTTSLoop pI mW start sig polls now f =
      .raised (.plain ("Generation timed out after " ++ toString mW ++ "ms"))
        f now := by
  unfold generateTTSLoop
  rw [if_pos h]

/-- Helper: on a trace of only Generating responses, with the caller
signal never aborted and the maximum wait set to 100, the loop raises the
plain timeout error with at least one fetch issued, strictly after instant
`start + 100`, provided the trace lasts past the deadline. -/
lemma generateTTSLoop_generating_timeout (pI start : Nat)
    (polls : List (Nat × RequestResult TTSStatusResponse)) :
    ∀ now f,
      (∀ p ∈ polls, ∃ u, p.2 = RequestResult.ok ⟨.Generating, u⟩) →
      start ≤ now →
      ((now = start ∧ f = 0) ∨ 1 ≤ f) →
      100 < (now - start) + totalTime pI polls →
      ∃ k t,
        generateTTSLoop pI 100 start (fun _ => false) polls now f =
          .raised (.plain ("Generation timed out after 100ms")) k t ∧
        1 ≤ k ∧ start + 100 < t := by
  induction polls with
  | nil =>
    intro now f hall hle hinit hbig
    simp [totalTime] at hbig
    have hf : 1 ≤ f := by
      rcases hinit with ⟨hns, hf0⟩ | hf
      · omega
      · exact hf
    refine ⟨f, now, ?_, hf, by omega⟩
    have hfire :=
      generateTTSLoop_timeout_fire pI 100 start (fun _ => false) [] now f hbig
    simpa using hfire
  | cons p rest ih =>
    intro now f hall hle hinit hbig
    obtain ⟨d, r⟩ := p
    obtain ⟨u, hu⟩ := hall (d, r) (List.mem_cons_self _ _)
    simp only at hu
    subst hu
    by_cases hg : 100 < now - start
    · have hf : 1 ≤ f := by
        rcases hinit with ⟨hns, hf0⟩ | hf
        · omega
        · exact hf
      refine ⟨f, now, ?_, hf, by omega⟩
      have hfire :=
        generateTTSLoop_timeout_fire pI 100 start (fun _ => false)
          ((d, RequestResult.ok ⟨.Generating, u⟩) :: rest) now f hg
      simpa using hfire
    · have hrec :
          generateTTSLoop pI 100 start (fun _ => false)
              ((d, RequestResult.ok ⟨.Generating, u⟩) :: rest) now f =
            generateTTSLoop pI 100 start (fun _ => false) rest
              (now + d + pI) (f + 1) := by
        conv_lhs => unfold generateTTSLoop
        rw [if_neg hg]
        simp [jsTruthyUrl]
      rw [hrec]
      apply ih (now + d + pI) (f + 1)
      · intro q hq
        exact hall q (List.mem_cons_of_mem _ hq)
      · omega
      · omega
      · simp only [totalTime, List.map_cons, List.sum_cons] at hbig ⊢
        omega

/-- Helper: the status-to-code switch never yields UNAUTHORIZED. -/
lemma getErrorCodeFromStatus_ne_unauthorized (s : Nat) :
    getErrorCodeFromStatus s ≠ .UNAUTHORIZED := by
  unfold getErrorCodeFromStatus
  split_ifs <;> decide

/-- C2: for every completed non-2xx HTTP exchange, dispatch raises an
error whose code is exactly the table image of the status: 400 to
INVALID_PARAMS, 401 to INVALID_API_KEY, 402 to INSUFFICIENT_CREDITS,
403 to FORBIDDEN, 404 to NOT_FOUND, every other non-2xx status to
UNKNOWN. -/
theorem dispatch_status_code_table (sig : Option Bool) (s : Nat)
    (b : Option APIErrorResponse) (h : ¬(200 ≤ s ∧ s ≤ 299)) :
    ∃ e, requestOutcome sig (.completed s b) = .err e ∧
      e.code =
        (if s = 400 then AudixaErrorCode.INVALID_PARAMS
         else if s = 401 then AudixaErrorCode.INVALID_API_KEY
         else if s = 402 then AudixaErrorCode.INSUFFICIENT_CREDITS
         else if s = 403 then AudixaErrorCode.FORBIDDEN
         else if s = 404 then AudixaErrorCode.NOT_FOUND
         else AudixaErrorCode.UNKNOWN) := by
  refine ⟨AudixaError.fromResponse s b, ?_, rfl⟩
  simp only [requestOutcome]
  rw [if_neg h]

/-- Witness for C2: status 404 yields NOT_FOUND. -/
theorem dispatch_status_code_table_witness :
    (¬(200 ≤ 404 ∧ (404 : Nat) ≤ 299)) ∧
    ∃ e, requestOutcome none (.completed 404 none) = .err e ∧
      e.code = AudixaErrorCode.NOT_FOUND := by
  refine ⟨by omega, ?_⟩
  have h := dispatch_status_code_table none 404 none (by omega)
  simpa using h

/-- C3: on an aborted dispatch, a fired caller signal yields the
UNKNOWN-kind error with message "Request was cancelled" (never TIMEOUT),
while an elapsed timeout with the caller signal not fired yields
TIMEOUT. -/
theorem dispatch_abort_classification (sig : Option Bool) :
    (sig = some true →
      ∃ e, requestOutcome sig .abortRaised = .err e ∧
        e.code = .UNKNOWN ∧ e.message = "Request was cancelled" ∧
        e.code ≠ .TIMEOUT) ∧
    (sig ≠ some true →
      ∃ e, requestOutcome sig .abortRaised = .err e ∧
        e.code = .TIMEOUT ∧ e.message = "Request timed out") := by
  constructor
  · intro h
    refine ⟨⟨"Request was cancelled", .UNKNOWN, none, none⟩, ?_, rfl, rfl,
      by decide⟩
    simp only [requestOutcome]
    rw [if_pos h]
  · intro h
    refine ⟨AudixaError.timeoutError, ?_, rfl, rfl⟩
    simp only [requestOutcome]
    rw [if_neg h]

/-- Witness for C3: both abort classifications at concrete signals. -/
theorem dispatch_abort_classification_witness :
    (∃ e, requestOutcome (some true) .abortRaised = .err e ∧
        e.code = .UNKNOWN ∧ e.message = "Request was cancelled" ∧
        e.code ≠ .TIMEOUT) ∧
    (∃ e, requestOutcome (some false) .abortRaised = .err e ∧
        e.code = .TIMEOUT ∧ e.message = "Request timed out") :=
  ⟨(dispatch_abort_classification (some true)).1 rfl,
   (dispatch_abort_classification (some false)).2 (by decide)⟩

/-- C4 counterexample: with body message present but equal to the empty
string and error field "oops", the constructed message is "oops", not the
present (empty) message field, refuting the claim at this input. -/
theorem fromResponse_empty_message_counterexample :
    (AudixaError.fromResponse 400
        (some ⟨some (""), some ("oops"), none⟩)).message = "oops" ∧
    ("oops" : String) ≠ "" := by
  constructor
  · rfl
  · decide

/-- C4 amended: the constructed message is the body message field when
present and non-empty, else the body error field when present and
non-empty, else the synthesized string containing the status code;
present-but-empty fields are skipped (JavaScript or-chains treat the
empty string as absent). -/
theorem fromResponse_message_precedence (status : Nat)
    (b : Option APIErrorResponse) :
    (∃ bb s, b = some bb ∧ bb.message = some s ∧ s ≠ "" ∧
       (AudixaError.fromResponse status b).message = s) ∨
    (jsFalsyStr (b.bind APIErrorResponse.message) ∧
     ∃ bb s, b = some bb ∧ bb.error = some s ∧ s ≠ "" ∧
       (AudixaError.fromResponse status b).message = s) ∨
    (jsFalsyStr (b.bind APIErrorResponse.message) ∧
     jsFalsyStr (b.bind APIErrorResponse.error) ∧
     (AudixaError.fromResponse status b).message =
       "Request failed with status " ++ toString status) := by
  cases b with
  | none =>
    right; right
    exact ⟨Or.inl rfl, Or.inl rfl, rfl⟩
  | some bb =>
    obtain ⟨m, er, dts⟩ := bb
    have hmsg : (AudixaError.fromResponse status (some ⟨m, er, dts⟩)).message =
        jsOrStr m (jsOrStr er ("Request failed with status " ++ toString status)) :=
      rfl
    cases m with
    | some ms =>
      by_cases hms : ms = ""
      · subst hms
        cases er with
        | some es =>
          by_cases hes : es = ""
          · subst hes
            right; right
            exact ⟨Or.inr rfl, Or.inr rfl, by rw [hmsg]; simp [jsOrStr]⟩
          · right; left
            exact ⟨Or.inr rfl, ⟨some (""), some es, dts⟩, es, rfl, rfl, hes,
              by rw [hmsg]; simp [jsOrStr, hes]⟩
        | none =>
          right; right
          exact ⟨Or.inr rfl, Or.inl rfl, by rw [hmsg]; simp [jsOrStr]⟩
      · left
        exact ⟨⟨some ms, er, dts⟩, ms, rfl, rfl, hms,
          by rw [hmsg]; simp [jsOrStr, hms]⟩
    | none =>
      cases er with
      | some es =>
        by_cases hes : es = ""
        · subst hes
          right; right
          exact ⟨Or.inl rfl, Or.inr rfl, by rw [hmsg]; simp [jsOrStr]⟩
        · right; left
          exact ⟨Or.inl rfl, ⟨none, some es, dts⟩, es, rfl, rfl, hes,
            by rw [hmsg]; simp [jsOrStr, hes]⟩
      | none =>
        right; right
        exact ⟨Or.inl rfl, Or.inl rfl, by rw [hmsg]; simp [jsOrStr]⟩

/-- C5: URL composition is invariant under extra slash placement at the
join, and the two specified examples both produce the same URL. -/
theorem joinUrl_slash_invariant :
    (∀ b p : String, joinUrl (b ++ "/") p = joinUrl b p) ∧
    (∀ b p : String, joinUrl b ("/" ++ p) = joinUrl b p) ∧
    joinUrl ("https://x/v2/") ("/tts") = "https://x/v2/tts" ∧
    joinUrl ("https://x/v2") ("tts") = "https://x/v2/tts" := by
  refine ⟨?_, ?_, by decide, by decide⟩
  · intro b p
    cases b with
    | mk l => simp [joinUrl, dropTrailingSlashes, String.data, String.append]
  · intro b p
    cases p with
    | mk l => simp [joinUrl, dropLeadingSlashes, String.data, String.append]

/-- C6 counterexample: a caller signal already aborted (at instant 0)
when the combination is constructed (at instant 1) is never observed: the
combined signal never aborts, refuting abort-on-either in the
already-aborted case. -/
theorem combineSignals_ignores_prior_abort :
    AbortSignalModel.isAborted ⟨some 0⟩ 1 = true ∧
    (combineSignals ⟨some 0⟩ ⟨none⟩ 1).abortAt = none := by
  exact ⟨rfl, rfl⟩

/-- C6 amended: the combined signal is aborted at `t` exactly when one of
the two parent signals has its abort transition at or after the
construction instant `c` and at or before `t`; a parent aborted strictly
before `c` is never propagated. -/
theorem combineSignals_abort_on_either (user tSig : AbortSignalModel)
    (c t : Nat) :
    (combineSignals user tSig c).isAborted t = true ↔
      ((∃ ta, user.abortAt = some ta ∧ c ≤ ta ∧ ta ≤ t) ∨
       (∃ tb, tSig.abortAt = some tb ∧ c ≤ tb ∧ tb ≤ t)) := by
  obtain ⟨ua⟩ := user
  obtain ⟨ba⟩ := tSig
  cases ua with
  | none =>
    cases ba with
    | none =>
      simp [combineSignals, abortEventTime, minEventTime,
        AbortSignalModel.isAborted]
    | some tb =>
      by_cases h : c ≤ tb <;>
        simp [combineSignals, abortEventTime, minEventTime,
          AbortSignalModel.isAborted, h]
  | some ta =>
    cases ba with
    | none =>
      by_cases h : c ≤ ta <;>
        simp [combineSignals, abortEventTime, minEventTime,
          AbortSignalModel.isAborted, h]
    | some tb =>
      by_cases h1 : c ≤ ta <;> by_cases h2 : c ≤ tb <;>
        simp [combineSignals, abortEventTime, minEventTime,
          AbortSignalModel.isAborted, h1, h2, min_le_iff]

/-- C7: the generate-and-wait loop returns successfully only from a poll
whose status is Completed with a truthy (non-null, non-empty) audio URL,
returning exactly that URL; a poll reporting Completed with no truthy URL
does not terminate the loop, which continues exactly as for an
in-progress job. -/
theorem generateTTS_completed_url_semantics :
    (∀ pI mW sig gid start polls u k t,
       generateTTS pI mW sig (RequestResult.ok gid) start polls =
         .done u k t →
       ∃ d st, (d, RequestResult.ok st) ∈ polls ∧ st.status = .Completed ∧
         st.url = some u ∧ u ≠ "") ∧
    (∀ pI mW start sig now f d u rest,
       now - start ≤ mW → sig now = false → jsTruthyUrl u = false →
       generateTTSLoop pI mW start sig
           ((d, RequestResult.ok ⟨.Completed, u⟩) :: rest) now f =
         generateTTSLoop pI mW start sig rest (now + d + pI) (f + 1)) := by
  constructor
  · intro pI mW sig gid start polls u k t h
    exact generateTTSLoop_done_src pI mW start sig polls start 0 u k t h
  · intro pI mW start sig now f d u rest hwait hsig hurl
    conv_lhs => unfold generateTTSLoop
    rw [if_neg (by omega)]
    simp [hsig, hurl]

/-- Witness for C7: a successful return traced to its poll, and one
continuation step on a Completed poll with a null URL. -/
theorem generateTTS_completed_url_semantics_witness :
    (∃ d st,
        (d, RequestResult.ok st) ∈
          [((3 : Nat),
            RequestResult.ok
              (⟨.Completed, some ("https://a/x.mp3")⟩ : TTSStatusResponse))] ∧
        st.status = .Completed ∧ st.url = some ("https://a/x.mp3") ∧
        ("https://a/x.mp3" : String) ≠ "") ∧
    (generateTTSLoop 1000 120000 0 (fun _ => false)
        [((2 : Nat), RequestResult.ok ⟨.Completed, none⟩)] 0 0 =
      generateTTSLoop 1000 120000 0 (fun _ => false) [] (0 + 2 + 1000)
        (0 + 1)) := by
  constructor
  · exact (generateTTS_completed_url_semantics).1 1000 120000 (fun _ => false)
      ("g") 0
      [((3 : Nat), RequestResult.ok ⟨.Completed, some ("https://a/x.mp3")⟩)]
      ("https://a/x.mp3") 1 3 rfl
  · exact (generateTTS_completed_url_semantics).2 1000 120000 0
      (fun _ => false) 0 0 2 none [] (by omega) rfl rfl

/-- C8: generate-and-wait with maxWaitTime 100 on a job whose every poll
reports Generating raises the plain timeout failure strictly after 100
milliseconds of wall-clock time since submission, having issued at least
one status fetch, provided the modelled trace outlasts the deadline. -/
theorem generateTTS_maxWaitTime_100_times_out (gid : String)
    (start pI : Nat) (polls : List (Nat × RequestResult TTSStatusResponse))
    (hall : ∀ p ∈ polls, ∃ u, p.2 = RequestResult.ok ⟨.Generating, u⟩)
    (hlong : 100 < totalTime pI polls) :
    ∃ k t,
      generateTTS pI 100 (fun _ => false) (RequestResult.ok gid) start
          polls =
        .raised (.plain ("Generation timed out after 100ms")) k t ∧
      1 ≤ k ∧ start + 100 < t := by
  have h := generateTTSLoop_generating_timeout pI start polls start 0 hall
    le_rfl (Or.inl ⟨rfl, rfl⟩) (by simpa using hlong)
  exact h

/-- Witness for C8: a one-poll Generating trace with the default poll
interval times out after one fetch. -/
theorem generateTTS_maxWaitTime_100_times_out_witness :
    ∃ k t,
      generateTTS 1000 100 (fun _ => false) (RequestResult.ok ("g")) 0
          [((5 : Nat), RequestResult.ok ⟨.Generating, none⟩)] =
        .raised (.plain ("Generation timed out after 100ms")) k t ∧
      1 ≤ k ∧ 0 + 100 < t := by
  apply generateTTS_maxWaitTime_100_times_out
  · intro p hp
    simp only [List.mem_singleton] at hp
    subst hp
    exact ⟨none, rfl⟩
  · simp [totalTime]

/-- C9: construction with an empty-string or non-string API key raises
INVALID_PARAMS (with no dispatch involved in the model), and construction
with any non-empty string API key succeeds, storing that key. -/
theorem create_api_key_validation :
    (∀ opts, ∃ e, HttpClient.create (.str ("")) opts = .error e ∧
        e.code = .INVALID_PARAMS ∧
        e.message = "API key is required and must be a string") ∧
    (∀ k opts, isStringTy k = false →
        ∃ e, HttpClient.create k opts = .error e ∧
          e.code = .INVALID_PARAMS) ∧
    (∀ s opts, s ≠ "" →
        ∃ c, HttpClient.create (.str s) opts = .ok c ∧ c.apiKey = s) := by
  refine ⟨?_, ?_, ?_⟩
  · intro opts
    exact ⟨_, rfl, rfl, rfl⟩
  · intro k opts h
    refine ⟨⟨"API key is required and must be a string", .INVALID_PARAMS,
      none, none⟩, ?_, rfl⟩
    unfold HttpClient.create
    rw [h]
    simp
  · intro s opts h
    have hc : HttpClient.create (.str s) opts =
        .ok ⟨jsOrStr (opts.bind AudixaOptions.baseUrl) DEFAULT_BASE_URL,
             jsOrNat (opts.bind AudixaOptions.timeout) DEFAULT_TIMEOUT,
             s⟩ := by
      unfold HttpClient.create
      simp [jsTruthy, isStringTy, jsStringVal, h]
    exact ⟨_, hc, rfl⟩

/-- Witness for C9: the empty key and a numeric key are rejected with
INVALID_PARAMS; a non-empty string key is accepted and stored. -/
theorem create_api_key_validation_witness :
    (∃ e, HttpClient.create (.str ("")) none = .error e ∧
        e.code = .INVALID_PARAMS ∧
        e.message = "API key is required and must be a string") ∧
    (∃ e, HttpClient.create (.num 7) none = .error e ∧
        e.code = .INVALID_PARAMS) ∧
    (∃ c, HttpClient.create (.str ("k")) none = .ok c ∧ c.apiKey = "k") :=
  ⟨(create_api_key_validation).1 none,
   (create_api_key_validation).2.1 (.num 7) none rfl,
   (create_api_key_validation).2.2 ("k") none (by decide)⟩

/-- C1 (code_bug evidence): polling a job whose status fetch reports
Failed makes generate-and-wait raise a plain JavaScript Error, not an
AudixaError carrying a taxonomy kind. -/
theorem generateTTS_failed_job_plain_error :
    generateTTS 1000 120000 (fun _ => false) (RequestResult.ok ("g")) 0
        [((5 : Nat), RequestResult.ok ⟨.Failed, none⟩)] =
      .raised (.plain ("TTS generation failed")) 1 5 ∧
    ∀ e : AudixaError,
      RaisedError.plain ("TTS generation failed") ≠
        RaisedError.audixa e := by
  constructor
  · rfl
  · intro e h
    nomatch h

/-- C10: no code path produces the UNAUTHORIZED kind: not the status
table, not construction, not dispatch classification, and not the
generate-and-wait orchestration (whose propagated AudixaErrors all come
from dispatch). -/
theorem unauthorized_unreachable :
    (∀ s, getErrorCodeFromStatus s ≠ .UNAUTHORIZED) ∧
    (∀ k opts e, HttpClient.create k opts = .error e →
        e.code ≠ .UNAUTHORIZED) ∧
    (∀ sig o e, requestOutcome sig o = .err e → e.code ≠ .UNAUTHORIZED) ∧
    (∀ pI mW sig sub start polls e f t,
        (∀ e2, sub = RequestResult.err e2 → e2.code ≠ .UNAUTHORIZED) →
        (∀ p ∈ polls, ∀ e2, p.2 = RequestResult.err e2 →
            e2.code ≠ .UNAUTHORIZED) →
        generateTTS pI mW sig sub start polls = .raised (.audixa e) f t →
        e.code ≠ .UNAUTHORIZED) := by
  refine ⟨getErrorCodeFromStatus_ne_unauthorized, ?_, ?_, ?_⟩
  · intro k opts e h
    unfold HttpClient.create at h
    split at h
    · simp only [Except.error.injEq] at h
      subst h
      decide
    · simp at h
  · intro sig o e h
    cases o with
    | completed st b =>
      simp only [requestOutcome] at h
      split at h
      · simp at h
      · simp only [RequestResult.err.injEq] at h
        subst h
        exact getErrorCodeFromStatus_ne_unauthorized st
    | abortRaised =>
      simp only [requestOutcome] at h
      split at h <;>
        · simp only [RequestResult.err.injEq] at h
          subst h
          decide
    | errorRaised m =>
      simp only [requestOutcome, RequestResult.err.injEq] at h
      subst h
      show AudixaErrorCode.NETWORK_ERROR ≠ .UNAUTHORIZED
      decide
    | nonErrorRaised =>
      simp only [requestOutcome, RequestResult.err.injEq] at h
      subst h
      decide
  · intro pI mW sig sub start polls e f t hsub hpolls h
    cases sub with
    | err e2 =>
      simp only [generateTTS, GenOutcome.raised.injEq,
        RaisedError.audixa.injEq] at h
      obtain ⟨he, hf, ht⟩ := h
      subst he
      exact hsub e2 rfl
    | ok gid =>
      simp only [generateTTS] at h
      obtain ⟨d, hmem⟩ :=
        generateTTSLoop_audixa_src pI mW start sig polls start 0 e f t h
      exact hpolls (d, RequestResult.err e) hmem e rfl

/-- Witness for C10: each conjunct applied at a concrete input. -/
theorem unauthorized_unreachable_witness :
    getErrorCodeFromStatus 500 ≠ .UNAUTHORIZED ∧
    (⟨"API key is required and must be a string",
        AudixaErrorCode.INVALID_PARAMS, none, none⟩ : AudixaError).code ≠
      .UNAUTHORIZED ∧
    AudixaError.timeoutError.code ≠ .UNAUTHORIZED ∧
    (AudixaError.networkError ("x")).code ≠ .UNAUTHORIZED := by
  refine ⟨(unauthorized_unreachable).1 500, ?_, ?_, ?_⟩
  · exact (unauthorized_unreachable).2.1 (.str ("")) none _ rfl
  · exact (unauthorized_unreachable).2.2.1 none .abortRaised _ rfl
  · apply (unauthorized_unreachable).2.2.2 1000 120000 (fun _ => false)
      (RequestResult.ok ("g")) 0
      [((0 : Nat), RequestResult.err (AudixaError.networkError ("x")))]
      (AudixaError.networkError ("x")) 1 0
    · intro e2 h2
      exact absurd h2 (by simp)
    · intro p hp e2 h2
      simp only [List.mem_singleton] at hp
      subst hp
      simp only [RequestResult.err.injEq] at h2
      subst h2
      decide
    · rfl

end Audixa
